import Mathlib

/-!
Shallow embedding of `public/js/client.js` of the glitch-trello-power-up
repository: the capability handlers the file registers with
`TrelloPowerUp.initialize`, together with the helper functions
(`randomBadgeColor`, `getBadges`, `boardButtonCallback`,
`cardButtonCallback`) they share.

Modelling conventions:
- `Math.random()` returns a number in the half-open interval [0, 1); we model
  the randomness source as a rational in that interval (`RandDraw`) and pass it
  explicitly wherever the source calls `Math.random()`.
- A JS promise chain `act().then(() => next())` is modelled as the ordered
  list of host actions the callback dispatches (`HostAction`).
- A handler that may decline returns `HandlerResult`, whose two constructors
  are the descriptor answer and the `NotHandled` sentinel of the host SDK.
- `t.signUrl(url, args)` is host-provided and opaque; we model its result
  symbolically as `SignedUrl.signUrl url arg`.
- JS `null` on an optional field and an absent optional field are both
  modelled as `none`.
-/

/-- The icon constant `HYPERDEV_ICON` of client.js. -/
def HYPERDEV_ICON : String :=
  "https://cdn.hyperdev.com/us-east-1%3A3d31b21c-01a0-4da2-8827-4bc6e88b7618%2Fhyperdev.svg"

/-- The icon constant `GRAY_ICON` of client.js. -/
def GRAY_ICON : String :=
  "https://cdn.hyperdev.com/us-east-1%3A3d31b21c-01a0-4da2-8827-4bc6e88b7618%2Ficon-gray.svg"

/-- The icon constant `WHITE_ICON` of client.js. -/
def WHITE_ICON : String :=
  "https://cdn.hyperdev.com/us-east-1%3A3d31b21c-01a0-4da2-8827-4bc6e88b7618%2Ficon-white.svg"

/-- JS `s.toUpperCase()`: the simple uppercase mapping applied to every
character (`Char.toUpper` agrees with it on the ASCII park codes it is
applied to). -/
def jsToUpperCase (s : String) : String :=
  String.mk (s.data.map Char.toUpper)

/-- JS `s.indexOf(p) === 0`: the character sequence of `p` is a prefix of
the character sequence of `s`. -/
def jsIndexOfEqZero (s p : String) : Bool :=
  p.data.isPrefixOf s.data

/-- One draw of `Math.random()`: a rational in [0, 1). -/
def RandDraw : Type := { q : ℚ // 0 ≤ q ∧ q < 1 }

/-- JS `x.toFixed(0)` for `x ≥ 0`: round to the nearest integer, ties away
from zero, i.e. `⌊x + 1/2⌋` (the decimal string is produced by `toString`). -/
def jsToFixed0 (x : ℚ) : Nat :=
  (Int.floor (x + 1/2)).toNat

/-- `randomBadgeColor` of client.js:
`['green', 'yellow', 'red', 'none'][Math.floor(Math.random() * 4)]`.
The list index is always in range because the random draw lies in [0, 1),
so the `getD` default is never reached. -/
def randomBadgeColor (r : RandDraw) : String :=
  (["green", "yellow", "red", "none"]).getD (Int.floor (r.val * 4)).toNat ("")

/-- Argument object of `t.popup({title, url, height})`. -/
structure PopupRequest where
  title : String
  url : String
  height : Nat
deriving DecidableEq

/-- The object returned by the `dynamic` function of the first badge. -/
structure DynamicBadgeValue where
  title : String
  text : String
  icon : String
  color : String
  refresh : Nat
deriving DecidableEq

/-- A badge descriptor as built by `getBadges`. The `dynamic` field is the
zero-argument refresh function, taking its two `Math.random()` draws (one
for the text payload, one for the color) explicitly; the `callback` field is
modelled by the popup request the click handler dispatches. -/
structure Badge where
  dynamic : Option (RandDraw → RandDraw → DynamicBadgeValue) := none
  title : Option String := none
  text : Option String := none
  icon : Option String := none
  color : Option String := none
  callback : Option PopupRequest := none
  url : Option String := none
  target : Option String := none

/-- `getBadges` of client.js: fetches the card name, logs it, and returns the
fixed four-badge list. The first component is the logged line (the only use
of the card name); the second is the returned badge list. -/
def getBadges (cardName : String) : String × List Badge :=
  ("We just loaded the card name for fun: " ++ cardName,
   [{ dynamic := some (fun r₁ r₂ =>
        { title := "Detail Badge"
          text := "Dynamic " ++ toString (jsToFixed0 (r₁.val * 100))
          icon := HYPERDEV_ICON
          color := randomBadgeColor r₂
          refresh := 10 }) },
    { title := some ("Detail Badge")
      text := some ("Static")
      icon := some HYPERDEV_ICON
      color := none },
    { title := some ("Popup Detail Badge")
      text := some ("Popup")
      icon := some HYPERDEV_ICON
      callback := some { title := "Card Detail Badge Popup", url := "./settings.html", height := 184 } },
    { title := some ("URL Detail Badge")
      text := some ("URL")
      icon := some HYPERDEV_ICON
      url := some ("https://trello.com/home")
      target := some ("Trello Landing Page") }])

/-- A host UI or card action dispatched from inside a popup item callback. -/
inductive HostAction where
  | overlay (url : String) (argRand : String)
  | boardBar (url : String) (height : Nat)
  | attach (url : String) (name : String)
  | closePopup
deriving DecidableEq

/-- An item of a popup menu. `callback` is the ordered list of host actions
the item click dispatches, given the `Math.random()` draw made inside it
(unused by items whose callback draws no randomness). -/
structure PopupItem where
  text : String
  url : Option String := none
  callback : RandDraw → List HostAction

/-- Argument object of `t.popup({title, items})` (plain list popup). -/
structure ListPopupRequest where
  title : String
  items : List PopupItem

/-- The `search` options object of the card-button popup. -/
structure SearchSpec where
  count : Nat
  placeholder : String
  empty : String
deriving DecidableEq

/-- Argument object of `t.popup({title, items, search})`. -/
structure SearchPopupRequest where
  title : String
  items : List PopupItem
  search : SearchSpec

/-- `boardButtonCallback` of client.js: opens a two-item list popup; the
first item opens the overlay (with a random arg) then closes the popup, the
second opens the board bar then closes the popup. -/
def boardButtonCallback : ListPopupRequest :=
  { title := "Popup List Example"
    items := [
      { text := "Open Overlay"
        callback := fun r =>
          [HostAction.overlay ("./overlay.html") (toString (jsToFixed0 (r.val * 100))),
           HostAction.closePopup] },
      { text := "Open Board Bar"
        callback := fun _ =>
          [HostAction.boardBar ("./board-bar.html") 200,
           HostAction.closePopup] }] }

/-- The fixed park-code list of `cardButtonCallback`. -/
def parkCodes : List String := ["acad", "arch", "badl", "crla", "grca", "yell", "yose"]

/-- The local `urlForCode` of the map body in `cardButtonCallback`. -/
def urlForCode (parkCode : String) : String :=
  "http://www.nps.gov/" ++ parkCode ++ "/"

/-- The local `nameForCode` of the map body in `cardButtonCallback`. -/
def nameForCode (parkCode : String) : String :=
  "🏞 " ++ jsToUpperCase parkCode

/-- `cardButtonCallback` of client.js: opens a search popup over one item per
park code; selecting an item attaches the URL to the card and then closes
the popup. -/
def cardButtonCallback : SearchPopupRequest :=
  { title := "Popup Search Example"
    items := parkCodes.map (fun parkCode =>
      { text := nameForCode parkCode
        url := some (urlForCode parkCode)
        callback := fun _ =>
          [HostAction.attach (urlForCode parkCode) (nameForCode parkCode),
           HostAction.closePopup] })
    search := { count := 5, placeholder := "Search National Parks", empty := "No parks found" } }

/-- An attachment entry of `options.entries`. -/
structure Attachment where
  url : String
deriving DecidableEq

/-- The symbolic result of the host-provided `t.signUrl(url, args)`. -/
inductive SignedUrl where
  | signUrl (url : String) (arg : String)
deriving DecidableEq

/-- A section descriptor returned by the attachment-sections handler. -/
structure AttachmentSection where
  id : String
  claimed : List Attachment
  icon : String
  title : String
  contentType : String
  contentUrl : SignedUrl
  contentHeight : Nat
deriving DecidableEq

/-- The attachment-sections handler of client.js: claims the entries whose
URL starts with the Yellowstone URL (JS `indexOf(p) === 0` is exactly the
starts-with test) and returns one section for them, or the empty list when
none is claimed. -/
def attachmentSections (entries : List Attachment) : List AttachmentSection :=
  let claimed := entries.filter (fun attachment =>
    jsIndexOfEqZero attachment.url ("http://www.nps.gov/yell/"))
  if claimed.length > 0 then
    [{ id := "Yellowstone"
       claimed := claimed
       icon := HYPERDEV_ICON
       title := "Example Attachment Section: Yellowstone"
       contentType := "iframe"
       contentUrl := SignedUrl.signUrl ("./section.html") ("you can pass your section args here")
       contentHeight := 230 }]
  else []

/-- Result of a declinable handler: either a descriptor answer or the
`NotHandled` sentinel the handler would throw to decline. -/
inductive HandlerResult (α : Type) where
  | descriptor (value : α)
  | notHandled
deriving DecidableEq

/-- Whether a handler result is a descriptor answer. -/
def HandlerResult.isDescriptor {α : Type} : HandlerResult α → Bool
  | .descriptor _ => true
  | .notHandled => false

/-- Whether a handler result is the declined sentinel. -/
def HandlerResult.isNotHandled {α : Type} : HandlerResult α → Bool
  | .descriptor _ => false
  | .notHandled => true

/-- The descriptor returned by the attachment-thumbnail handler. -/
structure AttachmentThumbnail where
  url : String
  title : String
  imageUrl : String
  imageLogo : Bool
  openText : String
deriving DecidableEq

/-- The attachment-thumbnail handler of client.js. -/
def attachmentThumbnail (url : String) : HandlerResult AttachmentThumbnail :=
  .descriptor
    { url := url
      title := "👉 " ++ url ++ " 👈"
      imageUrl := HYPERDEV_ICON
      imageLogo := true
      openText := "Open Sesame" }

/-- The object the authorization-status promise resolves with. -/
structure AuthStatus where
  authorized : Bool
deriving DecidableEq

/-- The executor of the promise the authorization-status handler builds:
`new TrelloPowerUp.Promise((resolve) => resolve({authorized: true}))`. It is
handed a `resolve` continuation and calls it once. -/
def authorizationStatusExecutor {α : Type} (resolve : AuthStatus → α) : α :=
  resolve { authorized := true }

/-- The sequence of values the authorization-status promise is resolved with,
obtained by running the executor with a continuation that records its call. -/
def authorizationStatusResolutions : List AuthStatus :=
  authorizationStatusExecutor (fun a => [a])

/-- What clicking a button dispatches: the popup built by the corresponding
callback helper. -/
inductive ButtonClick where
  | popupOf (req : ListPopupRequest)
  | searchPopupOf (req : SearchPopupRequest)

/-- A button descriptor of board-buttons / card-buttons. Exactly one of
`callback` and `url` is set by each descriptor the handlers build. -/
structure Button where
  icon : String
  text : String
  callback : Option ButtonClick := none
  url : Option String := none
  target : Option String := none

/-- The board-buttons handler of client.js. -/
def boardButtons : List Button :=
  [{ icon := WHITE_ICON
     text := "Popup"
     callback := some (ButtonClick.popupOf boardButtonCallback) },
   { icon := WHITE_ICON
     text := "URL"
     url := some ("https://trello.com/inspiration")
     target := some ("Inspiring Boards") }]

/-- The card-buttons handler of client.js. -/
def cardButtons : List Button :=
  [{ icon := GRAY_ICON
     text := "Open Popup"
     callback := some (ButtonClick.searchPopupOf cardButtonCallback) },
   { icon := GRAY_ICON
     text := "Just a URL"
     url := some ("https://developers.trello.com")
     target := some ("Trello Developer Site") }]

/-- The card stub returned by the card-from-url handler. -/
structure CardStub where
  name : String
  desc : String
deriving DecidableEq

/-- The card-from-url handler of client.js: always resolves its promise with
the fixed name/description pair. -/
def cardFromUrl (url : String) : HandlerResult CardStub :=
  .descriptor
    { name := "💻 " ++ url ++ " 🤔"
      desc := "This Power-Up knows cool things about the attached url" }

/-- The descriptor returned by the format-url handler. -/
structure FormattedUrl where
  icon : String
  text : String
deriving DecidableEq

/-- The format-url handler of client.js. -/
def formatUrl (url : String) : HandlerResult FormattedUrl :=
  .descriptor
    { icon := GRAY_ICON
      text := "👉 " ++ url ++ " 👈" }

/-- The show-authorization handler of client.js. -/
def showAuthorization : PopupRequest :=
  { title := "My Auth Popup", url := "./authorize.html", height := 140 }

/-- The show-settings handler of client.js. -/
def showSettings : PopupRequest :=
  { title := "Settings", url := "./settings.html", height := 184 }

/-- A concrete `Math.random()` draw, used by witnesses. -/
def randDrawHalf : RandDraw := ⟨1/2, by norm_num⟩

/-- The first popup item `cardButtonCallback` builds (park code `acad`). -/
def itemAcad : PopupItem :=
  { text := nameForCode ("acad")
    url := some (urlForCode ("acad"))
    callback := fun _ =>
      [HostAction.attach (urlForCode ("acad")) (nameForCode ("acad")),
       HostAction.closePopup] }

lemma itemAcad_mem : itemAcad ∈ cardButtonCallback.items :=
  List.mem_map.mpr ⟨"acad", by decide, rfl⟩

/-- Unfolded form of `attachmentSections` with its local `claimed` binding
zeta-reduced, for use in the proofs below. -/
lemma attachmentSections_eq (entries : List Attachment) :
    attachmentSections entries =
      if (entries.filter (fun attachment =>
            jsIndexOfEqZero attachment.url ("http://www.nps.gov/yell/"))).length > 0 then
        [{ id := "Yellowstone"
           claimed := entries.filter (fun attachment =>
             jsIndexOfEqZero attachment.url ("http://www.nps.gov/yell/"))
           icon := HYPERDEV_ICON
           title := "Example Attachment Section: Yellowstone"
           contentType := "iframe"
           contentUrl := SignedUrl.signUrl ("./section.html") ("you can pass your section args here")
           contentHeight := 230 }]
      else [] := rfl

/-- C5: the authorization-status handler resolves exactly once, with the
object whose `authorized` field is `true`. -/
theorem authorizationStatus_resolves_once :
    authorizationStatusResolutions = [{ authorized := true }] ∧
    authorizationStatusResolutions.length = 1 ∧
    authorizationStatusResolutions[0]? = some { authorized := true } :=
  ⟨rfl, rfl, rfl⟩

/-- C7: for every input URL the format-url handler answers with the fixed
gray icon and the input URL surrounded by the fixed decorations, and in
particular maps the example URL to its decorated form. -/
theorem formatUrl_decorates : ∀ url : String,
    formatUrl url = HandlerResult.descriptor { icon := GRAY_ICON, text := "👉 " ++ url ++ " 👈" } ∧
    formatUrl ("https://example.com") =
      HandlerResult.descriptor { icon := GRAY_ICON, text := "👉 https://example.com 👈" } :=
  fun _ => ⟨rfl, by decide⟩

/-- C10: the attachment-thumbnail handler echoes the input URL unchanged and
titles it with the same decoration format-url uses as its display text, and
the card-from-url handler always resolves (never declines) with the fixed
name decoration and description. -/
theorem thumbnail_and_cardFromUrl_decoration : ∀ url : String,
    attachmentThumbnail url = HandlerResult.descriptor
      { url := url
        title := "👉 " ++ url ++ " 👈"
        imageUrl := HYPERDEV_ICON
        imageLogo := true
        openText := "Open Sesame" } ∧
    (∀ t f, attachmentThumbnail url = HandlerResult.descriptor t →
        formatUrl url = HandlerResult.descriptor f → t.title = f.text) ∧
    cardFromUrl url = HandlerResult.descriptor
      { name := "💻 " ++ url ++ " 🤔"
        desc := "This Power-Up knows cool things about the attached url" } ∧
    (cardFromUrl url).isNotHandled = false := by
  intro url
  refine ⟨rfl, ?_, rfl, rfl⟩
  intro t f ht hf
  simp only [attachmentThumbnail, HandlerResult.descriptor.injEq] at ht
  simp only [formatUrl, HandlerResult.descriptor.injEq] at hf
  subst ht
  subst hf
  rfl

/-- C2: each of attachment-thumbnail, card-from-url and format-url returns
exactly one of the two outcomes (a descriptor or the declined sentinel) on
every input, and the two outcomes are distinct constructors of the result
type, so a declined result is distinguishable from any descriptor answer. -/
theorem declinable_handlers_exactly_one_outcome : ∀ url : String,
    (((attachmentThumbnail url).isDescriptor = true ∨ (attachmentThumbnail url).isNotHandled = true) ∧
      ¬((attachmentThumbnail url).isDescriptor = true ∧ (attachmentThumbnail url).isNotHandled = true)) ∧
    (((cardFromUrl url).isDescriptor = true ∨ (cardFromUrl url).isNotHandled = true) ∧
      ¬((cardFromUrl url).isDescriptor = true ∧ (cardFromUrl url).isNotHandled = true)) ∧
    (((formatUrl url).isDescriptor = true ∨ (formatUrl url).isNotHandled = true) ∧
      ¬((formatUrl url).isDescriptor = true ∧ (formatUrl url).isNotHandled = true)) ∧
    (∀ (α : Type) (v : α), HandlerResult.descriptor v ≠ (HandlerResult.notHandled : HandlerResult α)) := by
  intro url
  refine ⟨⟨Or.inl rfl, ?_⟩, ⟨Or.inl rfl, ?_⟩, ⟨Or.inl rfl, ?_⟩, fun α v h => HandlerResult.noConfusion h⟩
  all_goals rintro ⟨-, h⟩; exact Bool.noConfusion h

/-- C4: board-buttons and card-buttons each return exactly two button
descriptors, and every descriptor has a callback and no URL (callback
variant) or a URL and no callback (link variant) — never both, never
neither. -/
theorem buttons_two_descriptors_variant_valid :
    boardButtons.length = 2 ∧ cardButtons.length = 2 ∧
    (∀ b ∈ boardButtons,
      (b.callback.isSome = true ∧ b.url = none) ∨ (b.callback = none ∧ b.url.isSome = true)) ∧
    (∀ b ∈ cardButtons,
      (b.callback.isSome = true ∧ b.url = none) ∨ (b.callback = none ∧ b.url.isSome = true)) := by
  refine ⟨rfl, rfl, ?_, ?_⟩ <;>
  · intro b hb
    rcases List.mem_cons.mp hb with rfl | hb
    · exact Or.inl ⟨rfl, rfl⟩
    rcases List.mem_cons.mp hb with rfl | hb
    · exact Or.inr ⟨rfl, rfl⟩
    · exact absurd hb (List.not_mem_nil b)

/-- C8: the badge generator shared by card-badges and card-detail-badges
returns the same badge list for every pair of card names (the fetched name
flows only into the logged line), and that list is the fixed four-element
sequence: a dynamic badge, a static badge, a callback badge opening the
fixed-size popup, and a link badge with URL and target, in that order. -/
theorem getBadges_independent_of_name : ∀ n₁ n₂ : String,
    (getBadges n₁).2 = (getBadges n₂).2 ∧
    (getBadges n₁).1 = "We just loaded the card name for fun: " ++ n₁ ∧
    (getBadges n₁).2.length = 4 ∧
    (∃ f, (getBadges n₁).2[0]? = some { dynamic := some f }) ∧
    (getBadges n₁).2[1]? = some
      { title := some ("Detail Badge"), text := some ("Static"), icon := some HYPERDEV_ICON } ∧
    (getBadges n₁).2[2]? = some
      { title := some ("Popup Detail Badge"), text := some ("Popup"), icon := some HYPERDEV_ICON
        callback := some { title := "Card Detail Badge Popup", url := "./settings.html", height := 184 } } ∧
    (getBadges n₁).2[3]? = some
      { title := some ("URL Detail Badge"), text := some ("URL"), icon := some HYPERDEV_ICON
        url := some ("https://trello.com/home"), target := some ("Trello Landing Page") } :=
  fun _ _ => ⟨rfl, rfl, rfl, ⟨_, rfl⟩, rfl, rfl, rfl⟩

/-- For every random draw the badge color index is in range, so the chosen
color is an element of the enumerated color list. -/
lemma randomBadgeColor_mem_colors (r : RandDraw) :
    randomBadgeColor r ∈ (["green", "yellow", "red", "none"] : List String) := by
  have h0 : (0:ℤ) ≤ Int.floor (r.val * 4) := by
    rw [Int.le_floor]
    push_cast
    have := r.property.1
    linarith
  have h4 : Int.floor (r.val * 4) < 4 := by
    rw [Int.floor_lt]
    push_cast
    have := r.property.2
    linarith
  have hlt : (Int.floor (r.val * 4)).toNat < 4 := by omega
  unfold randomBadgeColor
  generalize (Int.floor (r.val * 4)).toNat = i at hlt
  interval_cases i <;> decide

/-- C3: for every value of the randomness source the dynamic badge refresh
function returns a color from the fixed enumerated set, and the refresh
interval it declares is at least 10 seconds. -/
theorem badge_color_enum_and_refresh : ∀ (r : RandDraw) (n : String) (r₁ r₂ : RandDraw),
    randomBadgeColor r ∈ (["green", "yellow", "red", "none"] : List String) ∧
    (∃ f, (getBadges n).2[0]? = some { dynamic := some f } ∧
        (f r₁ r₂).color ∈ (["green", "yellow", "red", "none"] : List String) ∧
        10 ≤ (f r₁ r₂).refresh) := by
  intro r n r₁ r₂
  exact ⟨randomBadgeColor_mem_colors r,
    ⟨_, rfl, randomBadgeColor_mem_colors r₂, Nat.le_refl 10⟩⟩

/-- C1: for every attachment list the attachment-sections handler returns
only sections whose claimed members have a URL beginning with the
Yellowstone URL; a non-matching attachment appears in no returned section;
zero matches yield the empty list; and the two-entry example input yields
exactly one section claiming exactly its yell entry. -/
theorem attachmentSections_claims_only_yell : ∀ entries : List Attachment,
    (∀ s ∈ attachmentSections entries, ∀ a ∈ s.claimed,
        jsIndexOfEqZero a.url ("http://www.nps.gov/yell/") = true) ∧
    (∀ a ∈ entries, jsIndexOfEqZero a.url ("http://www.nps.gov/yell/") = false →
        ∀ s ∈ attachmentSections entries, a ∉ s.claimed) ∧
    ((∀ a ∈ entries, jsIndexOfEqZero a.url ("http://www.nps.gov/yell/") = false) →
        attachmentSections entries = []) ∧
    (∃ s, attachmentSections [⟨"http://www.nps.gov/yell/1"⟩, ⟨"http://www.nps.gov/acad/2"⟩] = [s] ∧
        s.claimed = [⟨"http://www.nps.gov/yell/1"⟩]) := by
  intro entries
  have hclaims : ∀ s ∈ attachmentSections entries, ∀ a ∈ s.claimed,
      jsIndexOfEqZero a.url ("http://www.nps.gov/yell/") = true := by
    intro s hs a ha
    rw [attachmentSections_eq] at hs
    split_ifs at hs with h
    · rw [List.mem_singleton] at hs
      subst hs
      exact (List.mem_filter.mp ha).2
    · exact absurd hs (List.not_mem_nil s)
  refine ⟨hclaims, ?_, ?_, ?_⟩
  · intro a _ hfalse s hs hmem
    have htrue := hclaims s hs a hmem
    rw [htrue] at hfalse
    exact Bool.noConfusion hfalse
  · intro hall
    have hfil : entries.filter (fun attachment =>
        jsIndexOfEqZero attachment.url ("http://www.nps.gov/yell/")) = [] := by
      rw [List.filter_eq_nil_iff]
      intro a ha
      simp [hall a ha]
    rw [attachmentSections_eq, hfil]
    rfl
  · exact ⟨{ id := "Yellowstone"
             claimed := [⟨"http://www.nps.gov/yell/1"⟩]
             icon := HYPERDEV_ICON
             title := "Example Attachment Section: Yellowstone"
             contentType := "iframe"
             contentUrl := SignedUrl.signUrl ("./section.html") ("you can pass your section args here")
             contentHeight := 230 }, by decide, rfl⟩

/-- C6: the card-button popup catalog has exactly 7 items, one per park
code in the fixed list, with pairwise distinct display labels and pairwise
distinct URLs, every URL being the park site URL built from its code. -/
theorem cardButton_popup_catalog_seven :
    cardButtonCallback.items.length = 7 ∧
    parkCodes = ["acad", "arch", "badl", "crla", "grca", "yell", "yose"] ∧
    cardButtonCallback.items.map (fun item => item.text) =
      parkCodes.map (fun code => "🏞 " ++ jsToUpperCase code) ∧
    cardButtonCallback.items.map (fun item => item.url) =
      parkCodes.map (fun code => some ("http://www.nps.gov/" ++ code ++ "/")) ∧
    (cardButtonCallback.items.map (fun item => item.text)).Nodup ∧
    (cardButtonCallback.items.map (fun item => item.url)).Nodup := by
  refine ⟨rfl, rfl, rfl, rfl, ?_, ?_⟩ <;> decide

/-- C9: every item of the card-button popup catalog dispatches the
attach-URL action (with its own URL and name) first and the popup close
second; a close action never occurs before the attach action. -/
theorem popup_item_attach_then_close : ∀ item ∈ cardButtonCallback.items, ∀ r : RandDraw,
    item.callback r = [HostAction.attach (item.url.getD ("")) item.text, HostAction.closePopup] ∧
    (∀ i, (item.callback r)[i]? = some HostAction.closePopup →
        ∃ j : Nat, j < i ∧ ∃ u n, (item.callback r)[j]? = some (HostAction.attach u n)) := by
  intro item hmem r
  rcases List.mem_map.mp hmem with ⟨code, hcode, rfl⟩
  refine ⟨rfl, ?_⟩
  intro i hi
  rcases i with _ | _ | n
  · simp at hi
  · exact ⟨0, Nat.zero_lt_one, urlForCode code, nameForCode code, rfl⟩
  · simp at hi

/-- Witness for the popup item ordering theorem, at the first catalog item
and a concrete random draw. -/
theorem popup_item_attach_then_close_witness :
    itemAcad.callback randDrawHalf =
      [HostAction.attach (itemAcad.url.getD ("")) itemAcad.text, HostAction.closePopup] ∧
    (∀ i, (itemAcad.callback randDrawHalf)[i]? = some HostAction.closePopup →
        ∃ j : Nat, j < i ∧ ∃ u n, (itemAcad.callback randDrawHalf)[j]? = some (HostAction.attach u n)) :=
  popup_item_attach_then_close itemAcad itemAcad_mem randDrawHalf
